import Mathlib

/-!
Verification of the word-count orchestration component (`Counter` class,
`src/src/extras/counter.ts`) of the LaTeX-Workshop extension.

The TypeScript class is shallowly embedded: the mutable fields of the class
become a `CounterState` record, the status-bar item becomes a `StatusBarItem`
record, and every method becomes a pure function from the old state (plus its
inputs) to the new state together with a list of `Effect`s recording the
externally visible actions it performs (log lines, notifications, process
spawns, timer registrations).  The asynchronous parts of `runTeXCount` are
split at their callback boundaries: `runTeXCountSpawn` is the synchronous
part up to and including the spawn, and `texCountOnExit` / `texCountOnError`
are the process-exit and process-error handlers; the handler result carries
an `Option Bool` that is `some b` exactly when the promise returned by
`runTeXCount` is resolved (with value `b`) on that path, and `none` when it
is left pending forever.
-/

/-- State of a `vscode.StatusBarItem` as used by the Counter: its text, its
tooltip and whether `show()` (vs `hide()`) was last called on it. -/
structure StatusBarItem where
  text : String
  tooltip : String
  visible : Bool
deriving Repr, DecidableEq

/-- The mutable fields of the `Counter` class, plus its status bar item. -/
structure CounterState where
  useDocker : Bool
  disableCountAfterSave : Bool
  autoRunEnabled : Bool
  autoRunInterval : Nat
  commandArgs : List String
  commandPath : String
  texCountMessage : String
  wordCount : String
  status : StatusBarItem
deriving Repr, DecidableEq

/-- Externally visible actions performed by the Counter methods. -/
inductive Effect where
  | log (msg : String)
  | logCommand (msg command : String) (args : List String)
  | logError (msg : String)
  | showErrorMessage (msg : String)
  | showInformationMessage (msg : String)
  | chmod (p : String)
  | spawn (command : String) (args : List String) (cwd : String)
  | setTimeoutResetFlag (interval : Nat)
deriving Repr, DecidableEq

/-- Whether an effect is a process spawn. -/
def Effect.isSpawn : Effect → Bool
  | .spawn _ _ _ => true
  | _ => false

/-- The arguments of the first spawn effect in a list, if any. -/
def spawnArgsOf : List Effect → Option (List String)
  | [] => none
  | .spawn _ args _ :: _ => some args
  | _ :: es => spawnArgsOf es

/-- The settings read by `loadConfiguration` from the editor configuration. -/
structure TexcountConfig where
  autorun : String
  interval : Nat
  args : List String
  path : String
  dockerEnabled : Bool
deriving Repr, DecidableEq

/-- Host environment facts used by `runTeXCount` for command resolution:
whether `process.platform === win32` and the extension root directory. -/
structure Env where
  platformWin32 : Bool
  extensionRoot : String
deriving Repr, DecidableEq

/-- `loadConfiguration(scope)`: overwrite the five configuration fields;
auto-run is enabled exactly when the autorun setting is the literal
string onSave. -/
def loadConfiguration (st : CounterState) (cfg : TexcountConfig) : CounterState :=
  { st with
    autoRunEnabled := cfg.autorun == "onSave"
    autoRunInterval := cfg.interval
    commandArgs := cfg.args
    commandPath := cfg.path
    useDocker := cfg.dockerEnabled }

/-- `updateWordCount()`: refresh the status bar text and tooltip from the
stored `wordCount` and `texCountMessage`. -/
def updateWordCount (st : CounterState) : CounterState :=
  if st.wordCount = "" then
    { st with status := { st.status with text := "", tooltip := "" } }
  else
    { st with status := { st.status with
        text := st.wordCount ++ " words"
        tooltip := st.texCountMessage } }

/-- `updateStatusVisibility()`: when auto-run is enabled, call
`updateWordCount` and show the status item; otherwise hide it.  The effect
list records the externally visible actions performed (there are none:
this method only writes status bar fields). -/
def updateStatusVisibility (st : CounterState) : CounterState × List Effect :=
  if st.autoRunEnabled then
    let st1 := updateWordCount st
    ({ st1 with status := { st1.status with visible := true } }, [])
  else
    ({ st with status := { st.status with visible := false } }, [])

/-- The last component of a path: the characters after the final slash,
modelling the posix behaviour of path.basename on the plain file
names used here. -/
def basename (p : String) : String :=
  String.mk ((p.data.reverse.takeWhile (fun c => c != '/')).reverse)

/-- The directory part of a path: the characters before the final slash,
modelling path.dirname. -/
def dirname (p : String) : String :=
  String.mk (p.data.take (p.data.length - (p.data.reverse.takeWhile (fun c => c != '/')).length - 1))

/-- Simplified path.resolve for the two wrapper-script paths: join the
extension root and the relative script path. -/
def pathResolve (root rel : String) : String :=
  root ++ "/" ++ rel

/-- Command resolution at the top of `runTeXCount`: with docker enabled the
command is a wrapper script under the extension root, picked by platform,
and on the non-Windows branch its permission bits are set; otherwise the
configured command path is used. -/
def resolveCommand (env : Env) (st : CounterState) : String × List Effect :=
  if st.useDocker then
    if env.platformWin32 then
      (pathResolve env.extensionRoot ("./scripts/texcount.bat"),
       [Effect.log ("Use Docker to invoke the command.")])
    else
      let c := pathResolve env.extensionRoot ("./scripts/texcount")
      (c, [Effect.log ("Use Docker to invoke the command."), Effect.chmod c])
  else
    (st.commandPath, [])

/-- Argument-list construction of `runTeXCount`: copy the configured
arguments, push "-merge" when merging and not already present, then push
the base name of the file. -/
def buildArgs (commandArgs : List String) (merge : Bool) (file : String) : List String :=
  let args := commandArgs
  let args := if merge && !(args.contains "-merge") then args ++ ["-merge"] else args
  args ++ [basename file]

/-- The synchronous part of `runTeXCount(file, merge)`: resolve the command,
build the arguments and spawn the process with the working directory set to
the directory of the file.  The class state is not mutated on this path. -/
def runTeXCountSpawn (env : Env) (st : CounterState) (file : String) (merge : Bool) :
    CounterState × List Effect :=
  let rc := resolveCommand env st
  let args := buildArgs st.commandArgs merge file
  (st, rc.2 ++ [Effect.logCommand ("Count words using command.") rc.1 args,
                Effect.spawn rc.1 args (dirname file)])

/-- `countOnSaveIfEnabled(file)`: drop the save when auto-run is off; when the
debounce suppression flag is set, only log; otherwise log, set the flag,
register the timer that clears it after the configured interval, and run the
count (with the default merge = true). -/
def countOnSaveIfEnabled (env : Env) (st : CounterState) (file : String) :
    CounterState × List Effect :=
  if !st.autoRunEnabled then
    (st, [])
  else if st.disableCountAfterSave then
    (st, [Effect.log ("Auto texcount is temporarily disabled during a second.")])
  else
    let st1 := { st with disableCountAfterSave := true }
    let r := runTeXCountSpawn env st1 file true
    (r.1, Effect.log ("Auto texcount started on saving file " ++ file ++ " .") ::
          Effect.setTimeoutResetFlag st.autoRunInterval :: r.2)

/-- The timer callback registered by `countOnSaveIfEnabled`: unconditionally
clear the debounce suppression flag. -/
def fireDebounceTimer (st : CounterState) : CounterState :=
  { st with disableCountAfterSave := false }

/-- The synchronous part of `count(file, merge)`: run the count.  (Its
then-callback is `countThen` below.) -/
def countSpawn (env : Env) (st : CounterState) (file : String) (merge : Bool) :
    CounterState × List Effect :=
  runTeXCountSpawn env st file merge

/-- The then-callback of `count`: show the stored message as an information
message. -/
def countThen (st : CounterState) : CounterState × List Effect :=
  (st, [Effect.showInformationMessage st.texCountMessage])

/-- First-match capture of the regex pat([0-9]*) over a character list:
at the first occurrence of `pat`, the maximal digit run following it; `none`
when `pat` does not occur.  This is what `exec` of a fresh global regex whose
literal part is `pat` computes. -/
def execCaptureAux (pat : List Char) : List Char → Option (List Char)
  | [] => if pat.isPrefixOf ([] : List Char) then some [] else none
  | c :: t =>
    if pat.isPrefixOf (c :: t) then some (((c :: t).drop pat.length).takeWhile Char.isDigit)
    else execCaptureAux pat t

/-- String-level wrapper of `execCaptureAux`. -/
def execCapture (pat s : String) : Option String :=
  (execCaptureAux pat.data s.data).map String.mk

/-- The capture of the word-count regex over the accumulated stdout. -/
def wordsCapture (stdout : String) : Option String :=
  execCapture ("Words in text: ") stdout

/-- The capture of the float-count regex over the accumulated stdout. -/
def floatsCapture (stdout : String) : Option String :=
  execCapture ("Number of floats/tables/figures: ") stdout

/-- Numeric value of an all-digit character list (most significant first). -/
def digitsToNat (l : List Char) : Nat :=
  l.foldl (fun acc c => 10 * acc + (c.toNat - 48)) 0

/-- JavaScript parseInt restricted to the all-digit capture strings it is
applied to in this code: NaN (here `none`) on the empty string, otherwise
the numeric value. -/
def jsParseInt (s : String) : Option Nat :=
  if s.data = [] then none else some (digitsToNat s.data)

/-- The float clause of the message: empty unless the float regex matched and
its capture parses to a positive number; plural "floats" exactly when that
number exceeds one.  The raw capture string itself is interpolated. -/
def floatMsgOf (floats : Option String) : String :=
  match floats with
  | none => ""
  | some f =>
    match jsParseInt f with
    | none => ""
    | some m =>
      if 0 < m then
        "and " ++ f ++ " float" ++ (if 1 < m then "s" else "") ++ " (tables, figures, etc.) "
      else ""

/-- The full message interpolated on the successful parse path. -/
def buildTexCountMessage (w : String) (floats : Option String) (merge : Bool) : String :=
  "There are " ++ w ++ " words " ++ floatMsgOf floats ++
    "in the " ++ (if merge then "LaTeX project" else "opened LaTeX file") ++ "."

/-- The exit handler of the spawned process inside `runTeXCount`: on a
non-zero exit code, log and notify without resolving; on exit code zero,
run the two regexes over the accumulated stdout; when the word-count regex
matched, store the capture and the built message together and resolve with
`true`; when it did not match, do nothing and leave the promise pending. -/
def texCountOnExit (st : CounterState) (merge : Bool) (exitCode : Int)
    (stdout stderr : String) : CounterState × List Effect × Option Bool :=
  if exitCode ≠ 0 then
    (st, [Effect.logError ("Cannot count words"),
          Effect.showErrorMessage
            ("TeXCount failed. Please refer to LaTeX Workshop Output for details.")], none)
  else
    match wordsCapture stdout with
    | none => (st, [], none)
    | some w =>
      ({ st with
          wordCount := w
          texCountMessage := buildTexCountMessage w (floatsCapture stdout) merge },
       [], some true)

/-- The error handler of the spawned process (spawn-level failure): log and
notify; the promise is never resolved on this path. -/
def texCountOnError (st : CounterState) (stderr : String) :
    CounterState × List Effect × Option Bool :=
  (st, [Effect.logError ("Cannot count words."),
        Effect.showErrorMessage
          ("TeXCount failed. Please refer to LaTeX Workshop Output for details.")], none)

/-! ### Substring infrastructure -/

/-- The string `s` contains `sub` as a contiguous substring. -/
def strContains (s sub : String) : Prop :=
  sub.data <:+: s.data

instance (s sub : String) : Decidable (strContains s sub) :=
  inferInstanceAs (Decidable (sub.data <:+: s.data))

/-- The string `s` ends with `suf`. -/
def strEndsWith (s suf : String) : Prop :=
  suf.data <:+ s.data

instance (s suf : String) : Decidable (strEndsWith s suf) :=
  inferInstanceAs (Decidable (suf.data <:+ s.data))

/-- Remove the decimal digits of a character list.  Substring containment is
preserved by this projection, and it turns a message whose only unknown
parts are digit runs into a concrete string. -/
def stripDigits (l : List Char) : List Char :=
  l.filter (fun c => !c.isDigit)

theorem stripDigits_append (a b : List Char) :
    stripDigits (a ++ b) = stripDigits a ++ stripDigits b :=
  List.filter_append _ _

theorem stripDigits_substr {p l : List Char} (h : p <:+: l) :
    stripDigits p <:+: stripDigits l := by
  obtain ⟨s, t, rfl⟩ := h
  exact ⟨stripDigits s, stripDigits t, by simp [stripDigits_append]⟩

theorem stripDigits_eq_nil {l : List Char} (h : ∀ c ∈ l, c.isDigit) :
    stripDigits l = [] := by
  simp only [stripDigits, List.filter_eq_nil_iff]
  intro c hc
  simp [h c hc]

theorem strContains_of_data {s p : String} (a b : List Char)
    (h : s.data = a ++ p.data ++ b) : strContains s p :=
  ⟨a, b, h.symm⟩

theorem not_strContains_of_strip {s p : String}
    (h : ¬ (stripDigits p.data <:+: stripDigits s.data)) : ¬ strContains s p :=
  fun hc => h (stripDigits_substr hc)

/-! ### Facts about the regex capture -/

theorem execCaptureAux_all_digits {pat : List Char} :
    ∀ {s c : List Char}, execCaptureAux pat s = some c → ∀ ch ∈ c, ch.isDigit := by
  intro s
  induction s with
  | nil =>
    intro c h ch hch
    simp only [execCaptureAux] at h
    split at h
    · injection h with h
      subst h
      cases hch
    · cases h
  | cons a t ih =>
    intro c h ch hch
    simp only [execCaptureAux] at h
    split at h
    · injection h with h
      subst h
      exact List.mem_takeWhile_imp hch
    · exact ih h ch hch

theorem execCapture_all_digits {pat s c : String} (h : execCapture pat s = some c) :
    ∀ ch ∈ c.data, ch.isDigit := by
  unfold execCapture at h
  cases ha : execCaptureAux pat.data s.data with
  | none => rw [ha] at h; cases h
  | some l =>
    rw [ha] at h
    injection h with h
    subst h
    exact execCaptureAux_all_digits ha

/-! ### The success path of the exit handler -/

theorem texCountOnExit_success {st : CounterState} {merge : Bool} {stdout stderr : String}
    {w : String} (hw : wordsCapture stdout = some w) :
    texCountOnExit st merge 0 stdout stderr =
      ({ st with
          wordCount := w
          texCountMessage := buildTexCountMessage w (floatsCapture stdout) merge },
       [], some true) := by
  simp [texCountOnExit, hw]

theorem buildTexCountMessage_data (w : String) (fl : Option String) (mg : Bool) :
    (buildTexCountMessage w fl mg).data =
      ("There are ").data ++ w.data ++ (" words ").data ++ (floatMsgOf fl).data ++
        ("in the ").data ++
        ((if mg then ("LaTeX project") else ("opened LaTeX file")) : String).data ++
        (".").data := by
  cases mg <;> simp [buildTexCountMessage, String.data_append]

/-- The float clause as interpolated from a capture `f` whose parsed value is
`m`. -/
def floatClause (f : String) (m : Nat) : String :=
  "and " ++ f ++ " float" ++ (if 1 < m then "s" else "") ++ " (tables, figures, etc.) "

theorem floatMsgOf_eq {stdout f : String} {m : Nat}
    (hf : floatsCapture stdout = some f) (hm : jsParseInt f = some m) :
    floatMsgOf (floatsCapture stdout) = if 0 < m then floatClause f m else "" := by
  rw [hf]
  simp [floatMsgOf, hm, floatClause]

theorem msg_contains_words (sw : String) (fl : Option String) (mg : Bool) :
    strContains (buildTexCountMessage sw fl mg) (sw ++ (" words")) := by
  apply strContains_of_data (("There are ").data)
      (((" ").data) ++ (floatMsgOf fl).data ++ (("in the ").data) ++
        (((if mg then ("LaTeX project") else ("opened LaTeX file")) : String)).data ++
        ((".").data))
  rw [buildTexCountMessage_data, String.data_append]
  have hws : (" words ").data = ((" words").data) ++ ((" ").data) := by decide
  rw [hws]
  simp [List.append_assoc]

theorem msg_contains_floatMsg (sw : String) (fl : Option String) (mg : Bool) :
    strContains (buildTexCountMessage sw fl mg) (floatMsgOf fl) := by
  apply strContains_of_data (("There are ").data ++ sw.data ++ ((" words ").data))
      ((("in the ").data) ++
        (((if mg then ("LaTeX project") else ("opened LaTeX file")) : String)).data ++
        ((".").data))
  rw [buildTexCountMessage_data]
  simp [List.append_assoc]

theorem floatClause_data (f : String) (m : Nat) :
    (floatClause f m).data =
      ("and ").data ++ f.data ++ ((" float").data) ++
        (((if 1 < m then ("s") else ("")) : String)).data ++
        ((" (tables, figures, etc.) ").data) := by
  by_cases h : 1 < m <;> simp [floatClause, String.data_append, h]

/-- C1: for a zero-exit run whose stdout yields word-count capture `sw` and
float capture `sf` parsing to `M`, the stored message contains `sw`
followed by " words"; it contains the float clause iff `M > 0`; and the
clause uses the singular " float (tables, figures, etc.) " iff `M = 1` and
the plural " floats (tables, figures, etc.) " iff `M > 1`. -/
theorem counter_C1_float_message (st : CounterState) (merge : Bool)
    (stdout stderr sw sf : String) (M : Nat)
    (hw : wordsCapture stdout = some sw)
    (hf : floatsCapture stdout = some sf)
    (hM : jsParseInt sf = some M) :
    strContains ((texCountOnExit st merge 0 stdout stderr).1.texCountMessage)
      (sw ++ (" words")) ∧
    (strContains ((texCountOnExit st merge 0 stdout stderr).1.texCountMessage)
      (floatClause sf M) ↔ 0 < M) ∧
    (strContains ((texCountOnExit st merge 0 stdout stderr).1.texCountMessage)
      (" float (tables, figures, etc.) ") ↔ M = 1) ∧
    (strContains ((texCountOnExit st merge 0 stdout stderr).1.texCountMessage)
      (" floats (tables, figures, etc.) ") ↔ 1 < M) := by
  have hmsg : (texCountOnExit st merge 0 stdout stderr).1.texCountMessage
      = buildTexCountMessage sw (floatsCapture stdout) merge := by
    rw [texCountOnExit_success hw]
  rw [hmsg]
  have hsw0 : stripDigits sw.data = [] := stripDigits_eq_nil (execCapture_all_digits hw)
  have hsf0 : stripDigits sf.data = [] := stripDigits_eq_nil (execCapture_all_digits hf)
  have hfm := floatMsgOf_eq hf hM
  refine ⟨msg_contains_words sw _ merge, ?_, ?_, ?_⟩
  · constructor
    · intro hc
      by_contra h0
      have hM0 : M = 0 := Nat.eq_zero_of_not_pos h0
      subst hM0
      have hfm0 : floatMsgOf (floatsCapture stdout) = "" := by rw [hfm]; simp
      revert hc
      apply not_strContains_of_strip
      rw [buildTexCountMessage_data, hfm0, floatClause_data]
      simp only [stripDigits_append, hsw0, hsf0]
      cases merge <;> decide
    · intro hM0
      have hfme : floatMsgOf (floatsCapture stdout) = floatClause sf M := by
        rw [hfm, if_pos hM0]
      rw [← hfme]
      exact msg_contains_floatMsg sw _ merge
  · constructor
    · intro hc
      rcases M with _ | _ | m
      · exfalso
        have hfm0 : floatMsgOf (floatsCapture stdout) = "" := by rw [hfm]; simp
        revert hc
        apply not_strContains_of_strip
        rw [buildTexCountMessage_data, hfm0]
        simp only [stripDigits_append, hsw0]
        cases merge <;> decide
      · rfl
      · exfalso
        have h12 : 1 < m + 2 := by omega
        have hfme : floatMsgOf (floatsCapture stdout) = floatClause sf (m + 2) := by
          rw [hfm, if_pos (by omega : 0 < m + 2)]
        revert hc
        apply not_strContains_of_strip
        rw [buildTexCountMessage_data, hfme, floatClause_data, if_pos h12]
        simp only [stripDigits_append, hsw0, hsf0]
        cases merge <;> decide
    · intro h1
      subst h1
      have hfme : floatMsgOf (floatsCapture stdout) = floatClause sf 1 := by
        rw [hfm, if_pos (by omega : 0 < 1)]
      have hcl : strContains (buildTexCountMessage sw (floatsCapture stdout) merge)
          (floatClause sf 1) := by
        rw [← hfme]
        exact msg_contains_floatMsg sw _ merge
      have hpat : ((" float (tables, figures, etc.) ") : String).data <:+:
          (floatClause sf 1).data := by
        rw [floatClause_data, if_neg (by omega : ¬ 1 < 1)]
        refine ⟨("and ").data ++ sf.data, [], ?_⟩
        simp only [List.append_assoc, List.append_nil]
        congr 1
      exact hpat.trans hcl
  · constructor
    · intro hc
      rcases M with _ | _ | m
      · exfalso
        have hfm0 : floatMsgOf (floatsCapture stdout) = "" := by rw [hfm]; simp
        revert hc
        apply not_strContains_of_strip
        rw [buildTexCountMessage_data, hfm0]
        simp only [stripDigits_append, hsw0]
        cases merge <;> decide
      · exfalso
        have hfme : floatMsgOf (floatsCapture stdout) = floatClause sf 1 := by
          rw [hfm, if_pos (by omega : 0 < 1)]
        revert hc
        apply not_strContains_of_strip
        rw [buildTexCountMessage_data, hfme, floatClause_data, if_neg (by omega : ¬ 1 < 1)]
        simp only [stripDigits_append, hsw0, hsf0]
        cases merge <;> decide
      · omega
    · intro h1
      have hfme : floatMsgOf (floatsCapture stdout) = floatClause sf M := by
        rw [hfm, if_pos (by omega : 0 < M)]
      have hcl : strContains (buildTexCountMessage sw (floatsCapture stdout) merge)
          (floatClause sf M) := by
        rw [← hfme]
        exact msg_contains_floatMsg sw _ merge
      have hpat : ((" floats (tables, figures, etc.) ") : String).data <:+:
          (floatClause sf M).data := by
        rw [floatClause_data, if_pos h1]
        refine ⟨("and ").data ++ sf.data, [], ?_⟩
        simp only [List.append_assoc, List.append_nil]
        congr 1
      exact hpat.trans hcl

/-- A concrete status bar item used by the witnesses. -/
def exStatus : StatusBarItem :=
  { text := "", tooltip := "", visible := false }

/-- A concrete counter state used by the witnesses. -/
def exSt : CounterState :=
  { useDocker := false
    disableCountAfterSave := false
    autoRunEnabled := true
    autoRunInterval := 1000
    commandArgs := []
    commandPath := "texcount"
    texCountMessage := ""
    wordCount := ""
    status := exStatus }

/-- A concrete tool stdout used by the witnesses. -/
def exStdout : String :=
  "Words in text: 100\nNumber of floats/tables/figures: 3\n"

/-- Witness for C1 at a concrete run: stdout with 100 words and 3 floats. -/
theorem counter_C1_float_message_witness :
    wordsCapture exStdout = some ("100") ∧
    floatsCapture exStdout = some ("3") ∧
    jsParseInt ("3") = some 3 ∧
    strContains ((texCountOnExit exSt true 0 exStdout "").1.texCountMessage)
      (("100") ++ (" words")) ∧
    (strContains ((texCountOnExit exSt true 0 exStdout "").1.texCountMessage)
      (floatClause ("3") 3) ↔ 0 < 3) ∧
    (strContains ((texCountOnExit exSt true 0 exStdout "").1.texCountMessage)
      (" float (tables, figures, etc.) ") ↔ 3 = 1) ∧
    (strContains ((texCountOnExit exSt true 0 exStdout "").1.texCountMessage)
      (" floats (tables, figures, etc.) ") ↔ 1 < 3) :=
  ⟨by decide, by decide, by decide,
   counter_C1_float_message exSt true exStdout "" ("100") ("3") 3
     (by decide) (by decide) (by decide)⟩

/-- C2: on a successful parse, the stored message ends with
"in the LaTeX project." when merge is true and with
"in the opened LaTeX file." when merge is false. -/
theorem counter_C2_merge_suffix (st : CounterState) (merge : Bool)
    (stdout stderr sw : String) (hw : wordsCapture stdout = some sw) :
    (merge = true →
      strEndsWith ((texCountOnExit st merge 0 stdout stderr).1.texCountMessage)
        ("in the LaTeX project.")) ∧
    (merge = false →
      strEndsWith ((texCountOnExit st merge 0 stdout stderr).1.texCountMessage)
        ("in the opened LaTeX file.")) := by
  have hmsg : (texCountOnExit st merge 0 stdout stderr).1.texCountMessage
      = buildTexCountMessage sw (floatsCapture stdout) merge := by
    rw [texCountOnExit_success hw]
  rw [hmsg]
  constructor
  · intro hmg
    subst hmg
    refine ⟨("There are ").data ++ sw.data ++ ((" words ").data) ++
      (floatMsgOf (floatsCapture stdout)).data, ?_⟩
    rw [buildTexCountMessage_data]
    have hsplit : (("in the LaTeX project.") : String).data
        = ("in the ").data ++ ((("LaTeX project") : String)).data ++
          (((".") : String)).data := by decide
    rw [hsplit]
    simp [List.append_assoc]
  · intro hmg
    subst hmg
    refine ⟨("There are ").data ++ sw.data ++ ((" words ").data) ++
      (floatMsgOf (floatsCapture stdout)).data, ?_⟩
    rw [buildTexCountMessage_data]
    have hsplit : (("in the opened LaTeX file.") : String).data
        = ("in the ").data ++ ((("opened LaTeX file") : String)).data ++
          (((".") : String)).data := by decide
    rw [hsplit]
    simp [List.append_assoc]

/-- Witness for C2 at a concrete run with merge = true. -/
theorem counter_C2_merge_suffix_witness :
    wordsCapture ("Words in text: 42") = some ("42") ∧
    strEndsWith ((texCountOnExit exSt true 0 ("Words in text: 42") "").1.texCountMessage)
      ("in the LaTeX project.") :=
  ⟨by decide,
   (counter_C2_merge_suffix exSt true ("Words in text: 42") "" ("42") (by decide)).1 rfl⟩

/-- C5: on a non-zero exit code the exit handler logs an error and shows the
error notification, leaves the whole state (hence `wordCount` and
`texCountMessage`) unchanged, and never resolves the promise. -/
theorem counter_C5_nonzero_exit (st : CounterState) (merge : Bool) (exitCode : Int)
    (stdout stderr : String) (h : exitCode ≠ 0) :
    (texCountOnExit st merge exitCode stdout stderr).2.1 =
      [Effect.logError ("Cannot count words"),
       Effect.showErrorMessage
         ("TeXCount failed. Please refer to LaTeX Workshop Output for details.")] ∧
    (texCountOnExit st merge exitCode stdout stderr).1.wordCount = st.wordCount ∧
    (texCountOnExit st merge exitCode stdout stderr).1.texCountMessage = st.texCountMessage ∧
    (texCountOnExit st merge exitCode stdout stderr).2.2 = none := by
  refine ⟨?_, ?_, ?_, ?_⟩ <;> simp [texCountOnExit, h]

/-- Witness for C5 at exit code 1. -/
theorem counter_C5_nonzero_exit_witness :
    ((1 : Int) ≠ 0) ∧
    (texCountOnExit exSt true 1 exStdout "boom").2.2 = none ∧
    (texCountOnExit exSt true 1 exStdout "boom").1.wordCount = exSt.wordCount :=
  ⟨by decide,
   (counter_C5_nonzero_exit exSt true 1 exStdout "boom" (by decide)).2.2.2,
   (counter_C5_nonzero_exit exSt true 1 exStdout "boom" (by decide)).2.1⟩

/-- C6: on exit code zero with stdout in which the word-count pattern does
not match, the exit handler does nothing at all: no effects (so nothing is
logged and no notification is shown), the state is unchanged, and the
promise is never resolved. -/
theorem counter_C6_unparseable (st : CounterState) (merge : Bool)
    (stdout stderr : String) (h : wordsCapture stdout = none) :
    texCountOnExit st merge 0 stdout stderr = (st, [], none) := by
  simp [texCountOnExit, h]

/-- Witness for C6 at a stdout without the word-count pattern. -/
theorem counter_C6_unparseable_witness :
    wordsCapture ("texcount: No files specified.") = none ∧
    texCountOnExit exSt true 0 ("texcount: No files specified.") "" = (exSt, [], none) :=
  ⟨by decide,
   counter_C6_unparseable exSt true ("texcount: No files specified.") "" (by decide)⟩

/-- C9: the status display refresh shows empty text and tooltip when the
stored word count is the empty string, and otherwise shows the count
followed by " words" with the full message as tooltip. -/
theorem counter_C9_status_refresh (st : CounterState) :
    (st.wordCount = "" →
      (updateWordCount st).status.text = "" ∧
      (updateWordCount st).status.tooltip = "") ∧
    (st.wordCount ≠ "" →
      (updateWordCount st).status.text = st.wordCount ++ (" words") ∧
      (updateWordCount st).status.tooltip = st.texCountMessage) := by
  constructor <;> intro h <;> simp [updateWordCount, h]

/-- Witness for C9 at a state with an empty stored word count. -/
theorem counter_C9_status_refresh_witness :
    exSt.wordCount = "" ∧
    (updateWordCount exSt).status.text = "" ∧
    (updateWordCount exSt).status.tooltip = "" :=
  ⟨rfl, ((counter_C9_status_refresh exSt).1 rfl).1, ((counter_C9_status_refresh exSt).1 rfl).2⟩

/-- C10: a zero-exit stdout containing the pattern prefix followed by no
digit still resolves: the capture of `[0-9]*` is the empty string, so the
stored word count becomes empty and the message reads "There are  words
in the LaTeX project.". -/
theorem counter_C10_empty_capture :
    (texCountOnExit exSt true 0 ("Words in text: x") "").2.2 = some true ∧
    (texCountOnExit exSt true 0 ("Words in text: x") "").1.wordCount = "" ∧
    (texCountOnExit exSt true 0 ("Words in text: x") "").1.texCountMessage =
      "There are  words in the LaTeX project." := by
  decide

/-- The argument list built by `runTeXCount`, flattened. -/
theorem buildArgs_eq (cA : List String) (mg : Bool) (file : String) :
    buildArgs cA mg file =
      cA ++ (if mg && !(cA.contains ("-merge")) then [("-merge")] else []) ++
        [basename file] := by
  simp only [buildArgs]
  cases hm : mg && !(cA.contains ("-merge")) <;> simp [List.append_assoc]

/-- C8: the argument list handed to the spawned process is the configured
arguments, followed by "-merge" exactly when merging is requested and it is
not already configured, followed by the base name of the file; and the
stored `commandArgs` field is unchanged by the invocation. -/
theorem counter_C8_spawn_args (env : Env) (st : CounterState) (file : String) (merge : Bool) :
    spawnArgsOf (runTeXCountSpawn env st file merge).2 =
      some (st.commandArgs ++
        (if merge && !(st.commandArgs.contains ("-merge")) then [("-merge")] else []) ++
        [basename file]) ∧
    (runTeXCountSpawn env st file merge).1.commandArgs = st.commandArgs := by
  constructor
  · have h1 : spawnArgsOf (runTeXCountSpawn env st file merge).2 =
        some (buildArgs st.commandArgs merge file) := by
      unfold runTeXCountSpawn resolveCommand
      cases st.useDocker <;> cases env.platformWin32 <;> simp [spawnArgsOf]
    rw [h1, buildArgs_eq]
  · rfl

/-- C7: across every operation of the Counter, `wordCount` and
`texCountMessage` are never partially updated: every operation except the
exit handler leaves both unchanged, and the exit handler either leaves both
unchanged or, on a single successful parse, sets both together (to the
capture and the message built from it) while resolving the promise. -/
theorem counter_C7_atomic_update (st : CounterState) (cfg : TexcountConfig) (env : Env)
    (file stdout stderr : String) (merge : Bool) (exitCode : Int) :
    (loadConfiguration st cfg).wordCount = st.wordCount ∧
    (loadConfiguration st cfg).texCountMessage = st.texCountMessage ∧
    (updateWordCount st).wordCount = st.wordCount ∧
    (updateWordCount st).texCountMessage = st.texCountMessage ∧
    (updateStatusVisibility st).1.wordCount = st.wordCount ∧
    (updateStatusVisibility st).1.texCountMessage = st.texCountMessage ∧
    (countOnSaveIfEnabled env st file).1.wordCount = st.wordCount ∧
    (countOnSaveIfEnabled env st file).1.texCountMessage = st.texCountMessage ∧
    (runTeXCountSpawn env st file merge).1.wordCount = st.wordCount ∧
    (runTeXCountSpawn env st file merge).1.texCountMessage = st.texCountMessage ∧
    (countSpawn env st file merge).1.wordCount = st.wordCount ∧
    (countSpawn env st file merge).1.texCountMessage = st.texCountMessage ∧
    (countThen st).1.wordCount = st.wordCount ∧
    (countThen st).1.texCountMessage = st.texCountMessage ∧
    (fireDebounceTimer st).wordCount = st.wordCount ∧
    (fireDebounceTimer st).texCountMessage = st.texCountMessage ∧
    (texCountOnError st stderr).1.wordCount = st.wordCount ∧
    (texCountOnError st stderr).1.texCountMessage = st.texCountMessage ∧
    (((texCountOnExit st merge exitCode stdout stderr).1.wordCount = st.wordCount ∧
      (texCountOnExit st merge exitCode stdout stderr).1.texCountMessage = st.texCountMessage) ∨
     (∃ w, exitCode = 0 ∧ wordsCapture stdout = some w ∧
       (texCountOnExit st merge exitCode stdout stderr).1.wordCount = w ∧
       (texCountOnExit st merge exitCode stdout stderr).1.texCountMessage =
         buildTexCountMessage w (floatsCapture stdout) merge ∧
       (texCountOnExit st merge exitCode stdout stderr).2.2 = some true)) := by
  refine ⟨rfl, rfl, ?_, ?_, ?_, ?_, ?_, ?_, rfl, rfl, rfl, rfl, rfl, rfl, rfl, rfl,
          rfl, rfl, ?_⟩
  · unfold updateWordCount
    split <;> rfl
  · unfold updateWordCount
    split <;> rfl
  · unfold updateStatusVisibility updateWordCount
    split <;> (try split) <;> rfl
  · unfold updateStatusVisibility updateWordCount
    split <;> (try split) <;> rfl
  · unfold countOnSaveIfEnabled runTeXCountSpawn
    split <;> (try split) <;> rfl
  · unfold countOnSaveIfEnabled runTeXCountSpawn
    split <;> (try split) <;> rfl
  · by_cases he : exitCode = 0
    · subst he
      cases hwc : wordsCapture stdout with
      | none =>
        left
        constructor <;> simp [texCountOnExit, hwc]
      | some w =>
        right
        exact ⟨w, rfl, rfl, by simp [texCountOnExit, hwc], by simp [texCountOnExit, hwc],
               by simp [texCountOnExit, hwc]⟩
    · left
      constructor <;> simp [texCountOnExit, he]

/-- C4: while the debounce suppression flag is set, a save-triggered call
only logs and changes nothing (in particular it spawns nothing); when auto
run fires, the flag is set in the resulting state, the reset timer is
registered with the configured interval, and a spawn happens; the timer
callback clears the flag on any state, regardless of what the count did. -/
theorem counter_C4_debounce (env : Env) (st : CounterState) (file : String)
    (h1 : st.autoRunEnabled = true) :
    (st.disableCountAfterSave = true →
      countOnSaveIfEnabled env st file =
        (st, [Effect.log ("Auto texcount is temporarily disabled during a second.")])) ∧
    (st.disableCountAfterSave = false →
      (countOnSaveIfEnabled env st file).1.disableCountAfterSave = true ∧
      Effect.setTimeoutResetFlag st.autoRunInterval ∈ (countOnSaveIfEnabled env st file).2 ∧
      (countOnSaveIfEnabled env st file).2.any Effect.isSpawn = true) ∧
    (∀ s : CounterState, (fireDebounceTimer s).disableCountAfterSave = false) := by
  refine ⟨?_, ?_, fun s => rfl⟩
  · intro h2
    simp [countOnSaveIfEnabled, h1, h2]
  · intro h2
    refine ⟨?_, ?_, ?_⟩ <;>
      simp [countOnSaveIfEnabled, runTeXCountSpawn, h1, h2, Effect.isSpawn]

/-- Witness for C4 at a concrete enabled, unsuppressed state. -/
theorem counter_C4_debounce_witness :
    exSt.autoRunEnabled = true ∧
    exSt.disableCountAfterSave = false ∧
    (countOnSaveIfEnabled { platformWin32 := false, extensionRoot := "/ext" } exSt
        "main.tex").1.disableCountAfterSave = true :=
  ⟨rfl, rfl,
   ((counter_C4_debounce { platformWin32 := false, extensionRoot := "/ext" } exSt
      "main.tex" rfl).2.1 rfl).1⟩

/-- C3 counterexample: at a concrete state with auto-run enabled,
`updateStatusVisibility` does not trigger a count: it performs no process
spawn (indeed no effect at all) and leaves the stored `wordCount` and
`texCountMessage` untouched; it only refreshes the display fields and shows
the indicator. -/
theorem counter_C3_counterexample :
    exSt.autoRunEnabled = true ∧
    (updateStatusVisibility exSt).2.any Effect.isSpawn = false ∧
    (updateStatusVisibility exSt).2 = [] ∧
    (updateStatusVisibility exSt).1.wordCount = exSt.wordCount ∧
    (updateStatusVisibility exSt).1.texCountMessage = exSt.texCountMessage ∧
    (updateStatusVisibility exSt).1.status.visible = true := by
  decide

/-- C3 amended: if auto-run is enabled, `updateStatusVisibility`
synchronously refreshes the displayed word count (via `updateWordCount`,
with no process spawn) and shows the status indicator; if auto-run is
disabled it hides the indicator; and no process spawn (indeed nothing at
all) occurs on save while auto-run is disabled. -/
theorem counter_C3_visibility_amended (st : CounterState) (env : Env) (file : String) :
    (st.autoRunEnabled = true →
      (updateStatusVisibility st).1 =
        { updateWordCount st with
            status := { (updateWordCount st).status with visible := true } } ∧
      (updateStatusVisibility st).2 = []) ∧
    (st.autoRunEnabled = false →
      (updateStatusVisibility st).1 = { st with status := { st.status with visible := false } } ∧
      (updateStatusVisibility st).2 = []) ∧
    (st.autoRunEnabled = false →
      countOnSaveIfEnabled env st file = (st, [])) := by
  refine ⟨?_, ?_, ?_⟩ <;> intro h <;>
    simp [updateStatusVisibility, countOnSaveIfEnabled, h]

/-- A concrete state with auto-run disabled, for the C3 witness. -/
def exStOff : CounterState :=
  { exSt with autoRunEnabled := false }

/-- Witness for the amended C3 at a concrete disabled state. -/
theorem counter_C3_visibility_amended_witness :
    exStOff.autoRunEnabled = false ∧
    countOnSaveIfEnabled { platformWin32 := false, extensionRoot := "/ext" } exStOff
      "main.tex" = (exStOff, []) :=
  ⟨rfl,
   (counter_C3_visibility_amended exStOff { platformWin32 := false, extensionRoot := "/ext" }
      "main.tex").2.2 rfl⟩
